import Mathlib

/-!
Verification of the ghproxy request-classification and link-rewriting core
(`src/proxy/match.go`).  Go strings are embedded as lists of characters
(`Str`); the Go standard-library string helpers used by the source
(`strings.HasPrefix`, `strings.TrimPrefix`, `strings.Split` on `"/"`) are
given as executable definitions with the same semantics, and each source
function is translated clause by clause.  A Go slice index without a bounds
check can panic at runtime; such indexing is modelled with `List.get?`, and
functions that can panic return an `Option`, with `none` standing for the
panic.
-/

/-- A Go string, embedded as its byte/character sequence. -/
abbrev Str := List Char

/-- Go `strings.HasPrefix(s, pre)`: does `s` start with `pre`? -/
def hasPre : Str → Str → Bool
  | _, [] => true
  | [], _ => false
  | c :: cs, p :: ps => (c = p) && hasPre cs ps

/-- Go `strings.TrimPrefix(s, pre)`: drop `pre` from the front of `s` when it
is present, otherwise return `s` unchanged. -/
def trimPre (s pre : Str) : Str :=
  if hasPre s pre then s.drop pre.length else s

/-- Go `strings.Split(s, "/")`: split on every slash, keeping empty parts.
`strSplit [] = [[]]`, matching Go where `Split("", "/") = [""]`. -/
def strSplit : Str → List Str
  | [] => [[]]
  | c :: cs =>
    if c = '/' then [] :: strSplit cs
    else
      match strSplit cs with
      | [] => [[c]]
      | p :: ps => (c :: p) :: ps

/-- Modelled from the spec: the repository's error type (`GHProxyErrors`) is
declared outside `src/`; per the spec (§3) a classification error carries the
HTTP status for the boundary layer and a message. -/
structure GHProxyErrors where
  statusCode : Nat
  errMsg : Str
deriving DecidableEq, Repr

/-- Modelled from the spec: the error constructor `NewErrorWithStatusLookup`
is declared outside `src/`; per the spec it builds a classification error
carrying the given HTTP status and message. -/
def NewErrorWithStatusLookup (status : Nat) (msg : Str) : GHProxyErrors :=
  ⟨status, msg⟩

/-- The authorization-policy view of the configuration used by `Matcher`
(`cfg.Auth.Method`, `cfg.Auth.Enabled`, `cfg.Auth.ForceAllowApi`). -/
structure AuthConfig where
  Method : Str
  Enabled : Bool
  ForceAllowApi : Bool
deriving DecidableEq, Repr

/-- The rewrite-policy view of the configuration used by `EditorMatcher`
(`cfg.Shell.RewriteAPI`). -/
structure ShellConfig where
  RewriteAPI : Bool
deriving DecidableEq, Repr

/-- The slice of the configuration read by this core. -/
structure Config where
  Auth : AuthConfig
  Shell : ShellConfig
deriving DecidableEq, Repr

/-- Error message of the github branch (quotes elided from the Go literal). -/
def msg400gh : Str :=
  ("Not enough parts in path after matching https://github.com*".data)

/-- Error message of the github sub-path default case (quotes elided). -/
def msg400sub : Str :=
  ("Url Matched https://github.com*, but didn-t match the next matcher".data)

/-- Error message of the raw branch (quotes elided). -/
def msg400raw : Str :=
  ("URL after matched https://raw* should have at least 4 parts (user/repo/branch/file).".data)

/-- Error message of the gist branch (quotes elided). -/
def msg400gist : Str :=
  ("URL after matched https://gist* should have at least 4 parts (user/gist_id).".data)

/-- Error message of the api authorization gate. -/
def msg403api : Str :=
  ("AuthHeader Unavailable, Need to open header auth to enable api proxy".data)

/-- Error message of the final no-match case. -/
def msg404 : Str := ("Didn-t match any matcher".data)

/-- `Matcher` from `src/proxy/match.go` (lines 14-105): classify a raw
incoming path into `(user, repo, matcher, error)`.  The api branch indexes
`parts[1]`/`parts[2]` without a bounds check; an out-of-range index is a Go
runtime panic, modelled as the outer `none`. -/
def Matcher (rawPath : Str) (cfg : Config) :
    Option (Str × Str × Str × Option GHProxyErrors) :=
  if hasPre rawPath ("https://github.com".data) then
    let remainingPath := trimPre rawPath ("https://github.com".data)
    let remainingPath :=
      if hasPre remainingPath ("/".data) then trimPre remainingPath ("/".data)
      else remainingPath
    let parts := strSplit remainingPath
    if parts.length ≤ 2 then
      some ([], [], [], some (NewErrorWithStatusLookup 400 msg400gh))
    else
      let user := parts.getD 0 []
      let repo := parts.getD 1 []
      if 3 ≤ parts.length then
        let p2 := parts.getD 2 []
        if p2 = ("releases".data) ∨ p2 = ("archive".data) then
          some (user, repo, ("releases".data), none)
        else if p2 = ("blob".data) then
          some (user, repo, ("blob".data), none)
        else if p2 = ("raw".data) then
          some (user, repo, ("raw".data), none)
        else if p2 = ("info".data) ∨ p2 = ("git-upload-pack".data) then
          some (user, repo, ("clone".data), none)
        else
          some ([], [], [], some (NewErrorWithStatusLookup 400 msg400sub))
      else
        -- Go falls through to `return user, repo, matcher, nil` with matcher
        -- still "" when fewer than 3 parts exist; unreachable under the ≤ 2
        -- guard above but kept for faithfulness.
        some (user, repo, [], none)
  else if hasPre rawPath ("https://raw".data) then
    let remainingPath := trimPre rawPath ("https://".data)
    let parts := strSplit remainingPath
    if parts.length ≤ 3 then
      some ([], [], [], some (NewErrorWithStatusLookup 400 msg400raw))
    else
      some (parts.getD 1 [], parts.getD 2 [], ("raw".data), none)
  else if hasPre rawPath ("https://gist".data) then
    let remainingPath := trimPre rawPath ("https://".data)
    let parts := strSplit remainingPath
    if parts.length ≤ 3 then
      some ([], [], [], some (NewErrorWithStatusLookup 400 msg400gist))
    else
      some (parts.getD 1 [], [], ("gist".data), none)
  else if hasPre rawPath ("https://api.github.com/".data) then
    let remainingPath := trimPre rawPath ("https://api.github.com/".data)
    let parts := strSplit remainingPath
    let step1 : Option (Str × Str) :=
      if parts.getD 0 [] = ("repos".data) then
        match parts.get? 1, parts.get? 2 with
        | some u, some r => some (u, r)
        | _, _ => none
      else some ([], [])
    match step1 with
    | none => none
    | some (user0, repo) =>
      let step2 : Option Str :=
        if parts.getD 0 [] = ("users".data) then parts.get? 1
        else some user0
      match step2 with
      | none => none
      | some user =>
        if ¬ cfg.Auth.ForceAllowApi then
          if cfg.Auth.Method ≠ ("header".data) ∨ ¬ cfg.Auth.Enabled then
            some ([], [], [], some (NewErrorWithStatusLookup 403 msg403api))
          else
            some (user, repo, ("api".data), none)
        else
          some (user, repo, ("api".data), none)
  else
    some ([], [], [], some (NewErrorWithStatusLookup 404 msg404))

/-- `EditorMatcher` from `src/proxy/match.go` (lines 107-135): the rewrite
eligibility gate.  The Go function returns `(bool, error)` with the error
always `nil`; the second component is kept to mirror the signature. -/
def EditorMatcher (rawPath : Str) (cfg : Config) : Bool × Option Str :=
  if hasPre rawPath ("https://github.com".data) then (true, none)
  else if hasPre rawPath ("https://raw.githubusercontent.com".data) then (true, none)
  else if hasPre rawPath ("https://raw.github.com".data) then (true, none)
  else if hasPre rawPath ("https://gist.githubusercontent.com".data) then (true, none)
  else if hasPre rawPath ("https://gist.github.com".data) then (true, none)
  else if cfg.Shell.RewriteAPI && hasPre rawPath ("https://api.github.com".data) then
    (true, none)
  else (false, none)

/-- `modifyURL` from `src/proxy/match.go` (lines 146-161): rewrite one URL to
point at the proxy host when the eligibility gate matches it. -/
def modifyURL (url : Str) (host : Str) (cfg : Config) : Str :=
  match EditorMatcher url cfg with
  | (matched, err) =>
    if err ≠ none then url
    else if matched then
      let u := trimPre url ("https://".data)
      let u := trimPre u ("http://".data)
      ("https://".data) ++ host ++ ("/".data) ++ u
    else url

/-- RE2 class `\s` as used by Go `regexp`: tab, newline, form feed, carriage
return, space. -/
def isSpaceRE (c : Char) : Bool :=
  c = ' ' || c = '\t' || c = '\n' || c = Char.ofNat 12 || c = '\r'

/-- A character admitted by the `[^\s'\x22]+` part of `urlPattern`: anything
but whitespace, a single quote, or a double quote. -/
def isURLChar (c : Char) : Bool :=
  !(isSpaceRE c) && c ≠ Char.ofNat 39 && c ≠ Char.ofNat 34

/-- The regular expression `urlPattern` (line 213) anchored at the head of
`s`: `https?://` followed by one or more non-whitespace, non-quote
characters, matched greedily.  Returns the matched token and the rest. -/
def urlMatchAt (s : Str) : Option (Str × Str) :=
  if hasPre s ("https://".data) then
    let rest := s.drop 8
    let tok := rest.takeWhile isURLChar
    if tok = [] then none else some (("https://".data) ++ tok, rest.drop tok.length)
  else if hasPre s ("http://".data) then
    let rest := s.drop 7
    let tok := rest.takeWhile isURLChar
    if tok = [] then none else some (("http://".data) ++ tok, rest.drop tok.length)
  else none

/-- `urlPattern.ReplaceAllStringFunc line (modifyURL · host cfg)` (line 305):
scan left to right, replacing every leftmost non-overlapping match.  The fuel
argument bounds recursion; each step consumes at least one character, so
`fuel = line.length` suffices. -/
def replaceURLsGo : Nat → Str → Str → Config → Str
  | 0, s, _, _ => s
  | fuel + 1, s, host, cfg =>
    match s with
    | [] => []
    | c :: cs =>
      match urlMatchAt (c :: cs) with
      | some (tok, rest) => modifyURL tok host cfg ++ replaceURLsGo fuel rest host cfg
      | none => c :: replaceURLsGo fuel cs host cfg

/-- Replace every URL token of one line by its rewritten form. -/
def replaceURLs (line host : Str) (cfg : Config) : Str :=
  replaceURLsGo line.length line host cfg

/-- Split a byte stream the way repeated `bufReader.ReadString('\n')` calls
do (line 295): the first component lists the complete lines, each retaining
its terminating newline; the second is the unterminated tail, which
`ReadString` returns together with `io.EOF` (or the stream's read error).
The accumulator holds the current line, reversed. -/
def splitLinesGo : Str → Str → List Str × Str
  | [], cur => ([], cur.reverse)
  | c :: cs, cur =>
    if c = '\n' then
      match splitLinesGo cs [] with
      | (ls, rest) => ((cur.reverse ++ [c]) :: ls, rest)
    else splitLinesGo cs (c :: cur)

/-- The line decomposition of a byte stream. -/
def splitLines (s : Str) : List Str × Str := splitLinesGo s []

/-- The behaviour of the upstream input stream handed to `processLinks`:
its bytes, the error its reads surface once the bytes are exhausted
(`none` = clean end-of-stream), and the error its `Close()` returns. -/
structure InputStream where
  data : Str
  readErr : Option Str
  closeErr : Option Str
deriving DecidableEq, Repr

/-- Everything observable about one `processLinks` call: the bytes the
consumer drains from the returned pipe reader, the terminal error those
reads end with (`none` = clean end-of-stream), the final value of the
goroutine's `written` counter, the `logError` lines emitted during cleanup,
and the `written`/`err` values the function itself returns at line 327.
Line 327 runs in the calling goroutine right after `go func(){...}()`; in
program order the producer goroutine has not yet executed, so the `int64`
copied out is still 0 and the returned error is `nil` (reading it later is
a data race; the model fixes the program-order interleaving). -/
structure PLResult where
  outBytes : Str
  terminal : Option Str
  writtenFinal : Nat
  logged : List Str
  writtenReturned : Int
  errReturned : Option Str
deriving DecidableEq, Repr

/-- The two magic bytes every gzip stream starts with. -/
def gzipMagic : Str := [Char.ofNat 0x1f, Char.ofNat 0x8b]

/-- Modelled from the spec: `gzip.NewReader` is Go standard library, outside
this repository; the spec (§4.4 step 3) relies only on its header validation
failing on a stream that does not begin with the gzip magic bytes, with no
bytes produced.  For a stream passing validation this model exposes the
bytes after the fixed 10-byte header undecoded; no claim in this development
depends on that branch. -/
def gzipNewReaderM (s : Str) : Except Str Str :=
  if s.take 2 = gzipMagic then Except.ok (s.drop 10)
  else Except.error ("gzip: invalid header".data)

/-- Modelled from the spec: the compressed image the gzip writer sends down
the conduit in gzip mode.  No claim in this development depends on its
value, only on whether any bytes reach the conduit at all. -/
def gzipCompressM (payload : Str) : Str := payload

/-- The `logError` line of the deferred `input.Close()` (lines 238-243):
emitted when the close fails, and nothing else happens with the error. -/
def inputCloseLog (input : InputStream) : List Str :=
  match input.closeErr with
  | some e => [("input close failed: ".data) ++ e]
  | none => []

/-- The behaviour the environment gives the conduit's write end and the
writers stacked on it during one `processLinks` call, as distinct injection
points.  `writeFailAt = some k` means the `bufWriter.WriteString` of the
`k`-th loop iteration (0-based) is the first to surface the underlying
conduit failure `writeMsg` (lines 310-315) — Go's bufio only touches the
conduit when its buffer spills, so which iteration surfaces the failure is
environment-determined; the failing `WriteString` reports `failAccepted`
bytes accepted (Go guarantees only `0 ≤ n ≤ len`).  `flushMsg` is a failure
of the first buffered-writer flush after a loop that completed without a
write error (the explicit flush of line 319, or the deferred flush of
line 284 when the loop ended in a read error).  `gzipCloseMsg` is a failure
of the deferred `gzipWriter.Close()` trailer write (lines 275-283) when
everything before it succeeded; it exists only in gzip mode.  The points
are independent knobs so that every combination the claims speak about can
be exercised. -/
structure ConduitEnv where
  writeFailAt : Option Nat
  failAccepted : Nat
  writeMsg : Str
  flushMsg : Option Str
  gzipCloseMsg : Option Str
deriving DecidableEq, Repr

/-- A conduit that accepts every write, flush and close. -/
def cenvOK : ConduitEnv := ⟨none, 0, [], none, none⟩

/-- Does the injected conduit write failure fire inside the loop?  It does
exactly when its iteration index falls on one of the complete lines; a
later index is never reached (the loop ends at end-of-stream first). -/
def loopWriteFails (outLines : List Str) (cenv : ConduitEnv) : Bool :=
  match cenv.writeFailAt with
  | some k => k < outLines.length
  | none => false

/-- The rewritten complete lines of the body: what the loop of lines
294-316 writes, one `ReplaceAllStringFunc` per line (the unterminated tail
is returned by `ReadString` together with its error and discarded by the
`break`/error branch). -/
def plLines (dataBytes : Str) (host : Str) (cfg : Config) : List Str :=
  (splitLines dataBytes).1.map (fun l => replaceURLs l host cfg)

/-- Identity mode, loop completed (no write error fired): the loop wrote
every complete line into the buffered writer and `written` accumulated
their lengths; a read error (wrapped `读取行错误`, line 300) returns before
the explicit flush, so the deferred flush (line 284) runs — its failure is
logged and recorded only when no error is recorded yet; with no read error
the explicit flush (line 319) records its own failure, and the deferred
flush then fails again with bufio's sticky error, logged only.  A failed
flush delivers nothing (the payload never left the buffer in this model);
a successful flush delivers the payload.  Then the deferred `input.Close()`
(logged only) and the pipe close with the recorded error (221-236). -/
def finishIdentityDone (outLines : List Str) (readErr : Option Str)
    (cenv : ConduitEnv) (input : InputStream) : PLResult :=
  let payload := outLines.flatten
  let written := (outLines.map List.length).sum
  match readErr with
  | some e =>
    match cenv.flushMsg with
    | some f =>
      { outBytes := [], terminal := some (("读取行错误: ".data) ++ e),
        writtenFinal := written,
        logged := [("writer flush failed: ".data) ++ f] ++ inputCloseLog input,
        writtenReturned := 0, errReturned := none }
    | none =>
      { outBytes := payload, terminal := some (("读取行错误: ".data) ++ e),
        writtenFinal := written, logged := inputCloseLog input,
        writtenReturned := 0, errReturned := none }
  | none =>
    match cenv.flushMsg with
    | some f =>
      { outBytes := [], terminal := some f, writtenFinal := written,
        logged := [("writer flush failed: ".data) ++ f] ++ inputCloseLog input,
        writtenReturned := 0, errReturned := none }
    | none =>
      { outBytes := payload, terminal := none, writtenFinal := written,
        logged := inputCloseLog input, writtenReturned := 0,
        errReturned := none }

/-- Identity mode with the loop included: when the injected conduit write
failure fires at iteration `k` on a complete line, the `k`-th `WriteString`
returns the error, `written` holds the earlier lines plus the accepted
bytes of the failing write, and the loop records the wrapped `写入文件错误`
and returns (lines 310-315) — before the final read, so a pending read
error is never seen.  The conduit delivered the lines it had accepted
before the failure; the deferred flush fails again with the sticky error,
logged only.  Otherwise the loop completes and `finishIdentityDone`
applies. -/
def finishIdentity (outLines : List Str) (readErr : Option Str)
    (cenv : ConduitEnv) (input : InputStream) : PLResult :=
  match cenv.writeFailAt with
  | some k =>
    if k < outLines.length then
      { outBytes := (outLines.take k).flatten,
        terminal := some (("写入文件错误: ".data) ++ cenv.writeMsg),
        writtenFinal := ((outLines.take k).map List.length).sum +
          min cenv.failAccepted (outLines.getD k []).length,
        logged := [("writer flush failed: ".data) ++ cenv.writeMsg] ++
          inputCloseLog input,
        writtenReturned := 0, errReturned := none }
    else finishIdentityDone outLines readErr cenv input
  | none => finishIdentityDone outLines readErr cenv input

/-- Gzip mode, loop completed: as `finishIdentityDone`, with the writer
stack `bufWriter → gzipWriter → pipe` and the deferred cleanup of lines
272-291 run in the code's order — `gzipWriter.Close()` first, then
`bufWriter.Flush()`.  With a read error recorded, both a close failure and
a flush failure are logged only (the recorded error is kept); with no read
error, a failure of the explicit flush (line 319) is recorded first and the
subsequent close and flush fail with the same sticky error, logged only;
when that flush succeeds, a `gzipWriter.Close()` trailer-write failure is
logged and recorded (err was nil), and the final deferred flush of the
now-empty buffer is a no-op.  Bytes reach the consumer as the compressed
image only when no conduit failure occurred (after a failed trailer write
or late flush the stream is broken; `gzipCompressM` already stands for the
stdlib-produced image, whose exact value no claim relies on). -/
def finishGzipDone (outLines : List Str) (readErr : Option Str)
    (cenv : ConduitEnv) (input : InputStream) : PLResult :=
  let payload := outLines.flatten
  let written := (outLines.map List.length).sum
  match readErr with
  | some e =>
    let closeLog := match cenv.gzipCloseMsg with
      | some g => [("gzipWriter close failed: ".data) ++ g]
      | none => []
    let flushLog := match cenv.flushMsg with
      | some f => [("writer flush failed: ".data) ++ f]
      | none => []
    { outBytes := if cenv.gzipCloseMsg = none ∧ cenv.flushMsg = none then
        gzipCompressM payload else [],
      terminal := some (("读取行错误: ".data) ++ e), writtenFinal := written,
      logged := closeLog ++ flushLog ++ inputCloseLog input,
      writtenReturned := 0, errReturned := none }
  | none =>
    match cenv.flushMsg with
    | some f =>
      { outBytes := [], terminal := some f, writtenFinal := written,
        logged := [("gzipWriter close failed: ".data) ++ f] ++
          [("writer flush failed: ".data) ++ f] ++ inputCloseLog input,
        writtenReturned := 0, errReturned := none }
    | none =>
      match cenv.gzipCloseMsg with
      | some g =>
        { outBytes := gzipCompressM payload, terminal := some g,
          writtenFinal := written,
          logged := [("gzipWriter close failed: ".data) ++ g] ++
            inputCloseLog input,
          writtenReturned := 0, errReturned := none }
      | none =>
        { outBytes := gzipCompressM payload, terminal := none,
          writtenFinal := written, logged := inputCloseLog input,
          writtenReturned := 0, errReturned := none }

/-- Gzip mode with the loop included: a conduit write failure that fires on
a complete line aborts the loop with the wrapped `写入文件错误` exactly as
in identity mode (the write travels bufWriter → gzipWriter → pipe, so the
same lines 310-315 apply); the deferred `gzipWriter.Close()` and
`bufWriter.Flush()` then fail with the sticky error, logged only. -/
def finishGzip (outLines : List Str) (readErr : Option Str)
    (cenv : ConduitEnv) (input : InputStream) : PLResult :=
  match cenv.writeFailAt with
  | some k =>
    if k < outLines.length then
      { outBytes := gzipCompressM ((outLines.take k).flatten),
        terminal := some (("写入文件错误: ".data) ++ cenv.writeMsg),
        writtenFinal := ((outLines.take k).map List.length).sum +
          min cenv.failAccepted (outLines.getD k []).length,
        logged := [("gzipWriter close failed: ".data) ++ cenv.writeMsg] ++
          [("writer flush failed: ".data) ++ cenv.writeMsg] ++
          inputCloseLog input,
        writtenReturned := 0, errReturned := none }
    else finishGzipDone outLines readErr cenv input
  | none => finishGzipDone outLines readErr cenv input

/-- `processLinks` from `src/proxy/match.go` (lines 216-328): the whole
observable behaviour of one call, producer goroutine included.  In gzip mode
a header-validation failure records the wrapped error before any byte is
produced (lines 247-255); only the input-close and pipe-close defers are
registered at that point. -/
def processLinks (input : InputStream) (compress : Str)
    (cenv : ConduitEnv) (host : Str) (cfg : Config) : PLResult :=
  if compress = ("gzip".data) then
    match gzipNewReaderM input.data with
    | Except.error ge =>
      { outBytes := [], terminal := some (("gzip解压错误: ".data) ++ ge),
        writtenFinal := 0, logged := inputCloseLog input,
        writtenReturned := 0, errReturned := none }
    | Except.ok payloadIn =>
      finishGzip (plLines payloadIn host cfg) input.readErr cenv input
  else
    finishIdentity (plLines input.data host cfg) input.readErr cenv input

/-- Follows the spec's words (§4.1): the recognized third segments of a
`https://github.com/<owner>/<repo>/...` path. -/
def recognizedSegs : List Str :=
  [("releases".data), ("archive".data), ("blob".data), ("raw".data),
   ("info".data), ("git-upload-pack".data)]

/-- Follows the spec's words (§4.1): the kind assigned to a recognized third
segment, written with the matcher strings the source uses (`Releases` ↦
"releases", `Blob` ↦ "blob", `Raw` ↦ "raw", `Clone` ↦ "clone"). -/
def specKindOf (seg : Str) : Str :=
  if seg = ("releases".data) ∨ seg = ("archive".data) then ("releases".data)
  else if seg = ("blob".data) then ("blob".data)
  else if seg = ("raw".data) then ("raw".data)
  else ("clone".data)

/-- Follows the spec's words (§4.2): eligibility of a URL for rewriting, as
the disjunction of the five fixed prefixes plus the api prefix gated by the
rewrite policy. -/
def eligibleForRewriteSpec (url : Str) (cfg : Config) : Bool :=
  hasPre url ("https://github.com".data) ||
  hasPre url ("https://raw.githubusercontent.com".data) ||
  hasPre url ("https://raw.github.com".data) ||
  hasPre url ("https://gist.githubusercontent.com".data) ||
  hasPre url ("https://gist.github.com".data) ||
  (cfg.Shell.RewriteAPI && hasPre url ("https://api.github.com".data))

/-- Follows the spec's words (§4.1 case 4): the owner an api path yields —
segment 1 after `repos` or `users`, empty otherwise. -/
def apiOwner (parts : List Str) : Str :=
  if parts.getD 0 [] = ("repos".data) ∨ parts.getD 0 [] = ("users".data) then
    parts.getD 1 []
  else []

/-- Follows the spec's words (§4.1 case 4): the repo an api path yields —
segment 2 after `repos`, empty otherwise. -/
def apiRepo (parts : List Str) : Str :=
  if parts.getD 0 [] = ("repos".data) then parts.getD 2 [] else []

/-- A fixed configuration with header auth enabled, used by the concrete
checks below. -/
def cfgPlain : Config := ⟨⟨("header".data), true, false⟩, ⟨false⟩⟩

/-- A fixed configuration with `ForceAllowApi` set and no header auth. -/
def cfgForceApi : Config := ⟨⟨("parameters".data), false, true⟩, ⟨false⟩⟩

/-- A fixed configuration with neither `ForceAllowApi` nor header auth. -/
def cfgNoAuth : Config := ⟨⟨("parameters".data), false, false⟩, ⟨false⟩⟩

theorem hasPre_nil (s : Str) : hasPre s [] = true := by
  cases s <;> rfl

theorem hasPre_append_self (p s : Str) : hasPre (p ++ s) p = true := by
  induction p with
  | nil => exact hasPre_nil s
  | cons c cs ih => simp [hasPre, ih]

theorem trimPre_append (p s : Str) : trimPre (p ++ s) p = s := by
  unfold trimPre
  rw [if_pos (hasPre_append_self p s), List.drop_left]

theorem hasPre_append_elim {u p : Str} (s : Str)
    (h : hasPre (u ++ s) p = true) :
    hasPre u p = true ∨ hasPre p u = true := by
  induction u generalizing p with
  | nil => exact Or.inr (hasPre_nil p)
  | cons c cs ih =>
    cases p with
    | nil => exact Or.inl rfl
    | cons q qs =>
      simp only [List.cons_append, hasPre, Bool.and_eq_true, decide_eq_true_eq] at h
      rcases ih h.2 with h' | h'
      · exact Or.inl (by simp [hasPre, h.1, h'])
      · exact Or.inr (by simp [hasPre, h.1.symm, h'])

theorem hasPre_append_false {u p : Str} (s : Str)
    (h1 : hasPre u p = false) (h2 : hasPre p u = false) :
    hasPre (u ++ s) p = false := by
  cases h : hasPre (u ++ s) p with
  | false => rfl
  | true =>
    rcases hasPre_append_elim s h with h' | h' <;> simp_all

theorem hasPre_trans {s p q : Str} (h1 : hasPre s p = true)
    (h2 : hasPre p q = true) : hasPre s q = true := by
  induction q generalizing s p with
  | nil => exact hasPre_nil s
  | cons r rs ih =>
    cases p with
    | nil => exact absurd h2 (by simp [hasPre])
    | cons a as =>
      cases s with
      | nil => exact absurd h1 (by simp [hasPre])
      | cons b bs =>
        simp only [hasPre, Bool.and_eq_true, decide_eq_true_eq] at h1 h2 ⊢
        exact ⟨h1.1.trans h2.1, ih h1.2 h2.2⟩

theorem hasPre_eq_append {s p : Str} (h : hasPre s p = true) :
    s = p ++ s.drop p.length := by
  induction p generalizing s with
  | nil => simp
  | cons a as ih =>
    cases s with
    | nil => exact absurd h (by simp [hasPre])
    | cons b bs =>
      simp only [hasPre, Bool.and_eq_true, decide_eq_true_eq] at h
      simpa [h.1] using ih h.2

theorem strSplit_ne_nil (s : Str) : strSplit s ≠ [] := by
  induction s with
  | nil => simp [strSplit]
  | cons c cs ih =>
    by_cases hc : c = '/'
    · simp [strSplit, hc]
    · simp only [strSplit, if_neg hc]
      cases h : strSplit cs with
      | nil => exact absurd h ih
      | cons p ps => simp

theorem strSplit_no_slash {a : Str} (h : ('/' : Char) ∉ a) :
    strSplit a = [a] := by
  induction a with
  | nil => rfl
  | cons c cs ih =>
    have hc : c ≠ '/' := fun hh => h (hh ▸ List.mem_cons_self c cs)
    have ihc : strSplit cs = [cs] := ih (fun hm => h (List.mem_cons_of_mem c hm))
    simp [strSplit, hc, ihc]

theorem strSplit_append {a : Str} (b : Str) (h : ('/' : Char) ∉ a) :
    strSplit (a ++ '/' :: b) = a :: strSplit b := by
  induction a with
  | nil => simp [strSplit]
  | cons c cs ih =>
    have hc : c ≠ '/' := fun hh => h (hh ▸ List.mem_cons_self c cs)
    have ihc := ih (fun hm => h (List.mem_cons_of_mem c hm))
    simp only [List.cons_append, strSplit, if_neg hc, List.append_eq, ihc]

section SanityChecks

example :
    modifyURL ("https://github.com/a/b".data) ("proxy.example".data) cfgPlain =
      ("https://proxy.example/github.com/a/b".data) := by decide

example :
    replaceURLs ("echo https://github.com/a/b x".data) ("proxy.example".data) cfgPlain =
      ("echo https://proxy.example/github.com/a/b x".data) := by decide

example :
    processLinks ⟨("echo https://github.com/acme/widget/raw/main/install.sh\n".data), none, none⟩
      [] cenvOK ("px.example".data) cfgPlain =
      { outBytes := ("echo https://px.example/github.com/acme/widget/raw/main/install.sh\n".data),
        terminal := none, writtenFinal := 67, logged := [],
        writtenReturned := 0, errReturned := none } := by decide

example :
    processLinks ⟨("echo https://github.com/a/b".data), none, none⟩
      [] cenvOK ("px.example".data) cfgPlain =
      { outBytes := [], terminal := none, writtenFinal := 0, logged := [],
        writtenReturned := 0, errReturned := none } := by decide

example :
    Matcher ("https://github.com/acme/widget/blob/main/a.txt".data) cfgPlain =
      some (("acme".data), ("widget".data), ("blob".data), none) := by decide

example :
    Matcher ("https://api.github.com/repos".data) cfgPlain = none := by decide

example :
    Matcher ("https://github.com/acme/widget".data) cfgPlain =
      some ([], [], [], some (NewErrorWithStatusLookup 400 msg400gh)) := by decide

end SanityChecks

theorem strSplit_seg_append {seg tail : Str} (hseg : ('/' : Char) ∉ seg)
    (htail : tail = [] ∨ ∃ t, tail = '/' :: t) :
    ∃ ts, strSplit (seg ++ tail) = seg :: ts := by
  rcases htail with h | ⟨t, rfl⟩
  · exact ⟨[], by simpa [h] using strSplit_no_slash hseg⟩
  · exact ⟨strSplit t, strSplit_append t hseg⟩

theorem Matcher_github_parts (cfg : Config) {body : Str}
    {parts : List Str} (hparts : strSplit body = parts) :
    Matcher (("https://github.com".data) ++ '/' :: body) cfg =
      (if parts.length ≤ 2 then
        some ([], [], [], some (NewErrorWithStatusLookup 400 msg400gh))
      else if 3 ≤ parts.length then
        if parts.getD 2 [] = ("releases".data) ∨ parts.getD 2 [] = ("archive".data) then
          some (parts.getD 0 [], parts.getD 1 [], ("releases".data), none)
        else if parts.getD 2 [] = ("blob".data) then
          some (parts.getD 0 [], parts.getD 1 [], ("blob".data), none)
        else if parts.getD 2 [] = ("raw".data) then
          some (parts.getD 0 [], parts.getD 1 [], ("raw".data), none)
        else if parts.getD 2 [] = ("info".data) ∨ parts.getD 2 [] = ("git-upload-pack".data) then
          some (parts.getD 0 [], parts.getD 1 [], ("clone".data), none)
        else
          some ([], [], [], some (NewErrorWithStatusLookup 400 msg400sub))
      else some (parts.getD 0 [], parts.getD 1 [], [], none)) := by
  have hslash : (("/".data) : Str) = ['/'] := rfl
  have e1 : trimPre (("https://github.com".data) ++ '/' :: body)
      ("https://github.com".data) = '/' :: body := trimPre_append _ _
  have h2 : hasPre ('/' :: body) ("/".data) = true := by
    rw [hslash]; exact hasPre_append_self ['/'] body
  have e2 : trimPre ('/' :: body) ("/".data) = body := by
    rw [hslash]; exact trimPre_append ['/'] body
  simp only [Matcher, if_pos (hasPre_append_self ("https://github.com".data) ('/' :: body)),
    e1, h2, if_true, e2, hparts]

/-- C1: for every path of the form
`https://github.com/<owner>/<repo>/<seg>...` with slash-free segments and a
continuation that is empty or starts another segment, `Matcher` succeeds
with owner and repo when `seg` is one of releases, archive, blob, raw,
info, git-upload-pack — mapping releases and archive to "releases", blob
to "blob", raw to "raw", info and git-upload-pack to "clone" — and any
other third segment yields a 400 classification error. -/
theorem C1_github_third_segment (owner repo seg tail : Str) (cfg : Config)
    (how : ('/' : Char) ∉ owner) (hrep : ('/' : Char) ∉ repo)
    (hseg : ('/' : Char) ∉ seg)
    (htail : tail = [] ∨ ∃ t, tail = '/' :: t) :
    (seg ∈ recognizedSegs →
      Matcher (("https://github.com".data) ++
          '/' :: (owner ++ '/' :: (repo ++ '/' :: (seg ++ tail)))) cfg =
        some (owner, repo, specKindOf seg, none)) ∧
    (seg ∉ recognizedSegs →
      Matcher (("https://github.com".data) ++
          '/' :: (owner ++ '/' :: (repo ++ '/' :: (seg ++ tail)))) cfg =
        some ([], [], [], some (NewErrorWithStatusLookup 400 msg400sub))) := by
  obtain ⟨ts, hts⟩ := strSplit_seg_append hseg htail
  have hparts : strSplit (owner ++ '/' :: (repo ++ '/' :: (seg ++ tail))) =
      owner :: repo :: seg :: ts := by
    rw [strSplit_append _ how, strSplit_append _ hrep, hts]
  have key := Matcher_github_parts cfg hparts
  have hlen : ¬ ((owner :: repo :: seg :: ts).length ≤ 2) := by simp
  have hlen3 : 3 ≤ (owner :: repo :: seg :: ts).length := by simp
  rw [if_neg hlen, if_pos hlen3] at key
  simp only [List.getD_cons_zero, List.getD_cons_succ] at key
  constructor
  · intro hmem
    simp only [recognizedSegs, List.mem_cons, List.not_mem_nil, or_false] at hmem
    rcases hmem with rfl | rfl | rfl | rfl | rfl | rfl <;>
      rw [key] <;> simp [specKindOf]
  · intro hmem
    simp only [recognizedSegs, List.mem_cons, List.not_mem_nil, or_false] at hmem
    push_neg at hmem
    obtain ⟨h1, h2, h3, h4, h5, h6⟩ := hmem
    rw [key, if_neg (not_or.mpr ⟨h1, h2⟩), if_neg h3, if_neg h4,
      if_neg (not_or.mpr ⟨h5, h6⟩)]

/-- Witness for C1 at a concrete recognized path and a concrete unmatched
sub-path. -/
theorem C1_github_third_segment_witness :
    (('/' : Char) ∉ ("acme".data)) ∧ (('/' : Char) ∉ ("widget".data)) ∧
    (('/' : Char) ∉ ("blob".data)) ∧ (("blob".data) ∈ recognizedSegs) ∧
    Matcher (("https://github.com".data) ++
        '/' :: (("acme".data) ++ '/' :: (("widget".data) ++
          '/' :: (("blob".data) ++ '/' :: ("main/a.txt".data))))) cfgPlain =
      some (("acme".data), ("widget".data), specKindOf ("blob".data), none) ∧
    Matcher (("https://github.com".data) ++
        '/' :: (("acme".data) ++ '/' :: (("widget".data) ++
          '/' :: (("pulls".data) ++ [])))) cfgPlain =
      some ([], [], [], some (NewErrorWithStatusLookup 400 msg400sub)) :=
  ⟨by decide, by decide, by decide, by decide,
    (C1_github_third_segment ("acme".data) ("widget".data) ("blob".data)
      ('/' :: ("main/a.txt".data)) cfgPlain (by decide) (by decide) (by decide)
      (Or.inr ⟨("main/a.txt".data), rfl⟩)).1 (by decide),
    (C1_github_third_segment ("acme".data) ("widget".data) ("pulls".data)
      [] cfgPlain (by decide) (by decide) (by decide) (Or.inl rfl)).2
      (by decide)⟩

/-- C2: the claim says `classify` is total and never panics, always
returning a result or a typed error.  The source refutes it: at
`https://api.github.com/users` the remainder splits to the single part
`users`, and line 91 indexes `parts[1]` without a bounds check — a Go
runtime panic (index out of range), modelled as `none`.  The panic occurs
before the authorization gate, for every configuration shape. -/
theorem C2_api_users_panic :
    Matcher (("https://api.github.com/users".data)) cfgPlain = none := by decide

/-- C3 counterexample: the claim says that with `forceAllowApi = true` every
path starting with `https://api.github.com/` yields kind Api; at the path
`https://api.github.com/repos` the source instead panics (out-of-range
index on `parts[1]`, modelled as `none`) before the gate is consulted. -/
theorem C3_api_counterexample :
    Matcher (("https://api.github.com/repos".data)) cfgForceApi = none := by decide

theorem Matcher_api_parts (cfg : Config) {rest : Str} {parts : List Str}
    (hparts : strSplit rest = parts) :
    Matcher (("https://api.github.com/".data) ++ rest) cfg =
      (match (if parts.getD 0 [] = ("repos".data) then
          match parts.get? 1, parts.get? 2 with
          | some u, some r => some (u, r)
          | _, _ => none
        else some (([] : Str), ([] : Str))) with
      | none => none
      | some (user0, repo) =>
        match (if parts.getD 0 [] = ("users".data) then parts.get? 1
          else some user0) with
        | none => none
        | some user =>
          if ¬ cfg.Auth.ForceAllowApi then
            if cfg.Auth.Method ≠ ("header".data) ∨ ¬ cfg.Auth.Enabled then
              some ([], [], [], some (NewErrorWithStatusLookup 403 msg403api))
            else some (user, repo, ("api".data), none)
          else some (user, repo, ("api".data), none)) := by
  have hgh : ¬ (hasPre (("https://api.github.com/".data) ++ rest)
      ("https://github.com".data) = true) := by
    rw [@hasPre_append_false ("https://api.github.com/".data)
      ("https://github.com".data) rest (by decide) (by decide)]
    decide
  have hraw : ¬ (hasPre (("https://api.github.com/".data) ++ rest)
      ("https://raw".data) = true) := by
    rw [@hasPre_append_false ("https://api.github.com/".data)
      ("https://raw".data) rest (by decide) (by decide)]
    decide
  have hgist : ¬ (hasPre (("https://api.github.com/".data) ++ rest)
      ("https://gist".data) = true) := by
    rw [@hasPre_append_false ("https://api.github.com/".data)
      ("https://gist".data) rest (by decide) (by decide)]
    decide
  have hapi : hasPre (("https://api.github.com/".data) ++ rest)
      ("https://api.github.com/".data) = true := hasPre_append_self _ _
  simp only [Matcher]
  rw [if_neg hgh, if_neg hraw, if_neg hgist, if_pos hapi, trimPre_append,
    hparts]
  rfl

/-- C3 (amended): for every api path whose remainder does not trip the
unchecked indexing — first segment `repos` implies at least 3 segments,
first segment `users` implies at least 2 — `Matcher` returns kind "api"
with the owner/repo the spec describes whenever `ForceAllowApi` is set,
regardless of the other auth settings, and returns a 403 classification
error when `ForceAllowApi` is unset and the method is not "header" or
header auth is disabled. -/
theorem C3_api_gate_amended (rest : Str) (cfg : Config)
    (hrepos : (strSplit rest).getD 0 [] = ("repos".data) →
      3 ≤ (strSplit rest).length)
    (husers : (strSplit rest).getD 0 [] = ("users".data) →
      2 ≤ (strSplit rest).length) :
    (cfg.Auth.ForceAllowApi = true →
      Matcher (("https://api.github.com/".data) ++ rest) cfg =
        some (apiOwner (strSplit rest), apiRepo (strSplit rest),
          ("api".data), none)) ∧
    (cfg.Auth.ForceAllowApi = false →
      (cfg.Auth.Method ≠ ("header".data) ∨ cfg.Auth.Enabled = false) →
      Matcher (("https://api.github.com/".data) ++ rest) cfg =
        some ([], [], [], some (NewErrorWithStatusLookup 403 msg403api))) := by
  have core : Matcher (("https://api.github.com/".data) ++ rest) cfg =
      (if ¬ cfg.Auth.ForceAllowApi then
        if cfg.Auth.Method ≠ ("header".data) ∨ ¬ cfg.Auth.Enabled then
          some ([], [], [], some (NewErrorWithStatusLookup 403 msg403api))
        else some (apiOwner (strSplit rest), apiRepo (strSplit rest),
          ("api".data), none)
      else some (apiOwner (strSplit rest), apiRepo (strSplit rest),
        ("api".data), none)) := by
    cases hP : strSplit rest with
    | nil => exact absurd hP (strSplit_ne_nil rest)
    | cons p0 P1 =>
      rw [hP] at hrepos husers
      have key := Matcher_api_parts cfg hP
      by_cases hr : p0 = ("repos".data)
      · have h3 : 3 ≤ (p0 :: P1).length := hrepos (by simp [hr])
        match P1, h3 with
        | p1 :: p2 :: P3, _ =>
          rw [key]
          simp [hr, apiOwner, apiRepo]
      · by_cases hu : p0 = ("users".data)
        · have h2 : 2 ≤ (p0 :: P1).length := husers (by simp [hu])
          match P1, h2 with
          | p1 :: P2, _ =>
            rw [key]
            simp [hr, hu, apiOwner, apiRepo]
        · rw [key]
          simp [hr, hu, apiOwner, apiRepo]
  constructor
  · intro hforce
    rw [core, hforce]
    simp
  · intro hforce hcond
    rw [core, hforce]
    rcases hcond with hm | he
    · simp [hm]
    · simp [he]

/-- Witness for C3's amended theorem: the forced-api case and the 403 case
at `https://api.github.com/repos/acme/widget`. -/
theorem C3_api_gate_amended_witness :
    ((strSplit ("repos/acme/widget".data)).getD 0 [] = ("repos".data) →
      3 ≤ (strSplit ("repos/acme/widget".data)).length) ∧
    ((strSplit ("repos/acme/widget".data)).getD 0 [] = ("users".data) →
      2 ≤ (strSplit ("repos/acme/widget".data)).length) ∧
    Matcher (("https://api.github.com/".data) ++ ("repos/acme/widget".data))
        cfgForceApi =
      some (apiOwner (strSplit ("repos/acme/widget".data)),
        apiRepo (strSplit ("repos/acme/widget".data)), ("api".data), none) ∧
    Matcher (("https://api.github.com/".data) ++ ("repos/acme/widget".data))
        cfgNoAuth =
      some ([], [], [], some (NewErrorWithStatusLookup 403 msg403api)) :=
  ⟨by decide, by decide,
    (C3_api_gate_amended ("repos/acme/widget".data) cfgForceApi
      (by decide) (by decide)).1 rfl,
    (C3_api_gate_amended ("repos/acme/widget".data) cfgNoAuth
      (by decide) (by decide)).2 rfl (Or.inl (by decide))⟩

/-- C4 counterexample: the claim says a `https://github.com/<owner>/<repo>`
path with exactly two segments yields a successful result with the kind
left unset; the source instead returns a 400 classification error ("not
enough parts", line 29: `len(parts) <= 2`). -/
theorem C4_two_segments_counterexample :
    Matcher (("https://github.com/acme/widget".data)) cfgPlain =
      some ([], [], [], some (NewErrorWithStatusLookup 400 msg400gh)) := by
  decide

/-- C4 (amended): for every `https://github.com/<owner>/<repo>` path with
exactly two slash-free segments, `Matcher` returns a 400 classification
error rather than a successful result; the fall-through to a success with
an unset kind described by the spec is unreachable. -/
theorem C4_two_segments_amended (owner repo : Str) (cfg : Config)
    (how : ('/' : Char) ∉ owner) (hrep : ('/' : Char) ∉ repo) :
    Matcher (("https://github.com".data) ++ '/' :: (owner ++ '/' :: repo))
        cfg =
      some ([], [], [], some (NewErrorWithStatusLookup 400 msg400gh)) := by
  have hparts : strSplit (owner ++ '/' :: repo) = [owner, repo] := by
    rw [strSplit_append _ how, strSplit_no_slash hrep]
  have key := Matcher_github_parts cfg hparts
  rw [key, if_pos (by simp)]

/-- Witness for C4's amended theorem at `https://github.com/acme/widget`. -/
theorem C4_two_segments_amended_witness :
    (('/' : Char) ∉ ("acme".data)) ∧ (('/' : Char) ∉ ("widget".data)) ∧
    Matcher (("https://github.com".data) ++
        '/' :: (("acme".data) ++ '/' :: ("widget".data))) cfgPlain =
      some ([], [], [], some (NewErrorWithStatusLookup 400 msg400gh)) :=
  ⟨by decide, by decide,
    C4_two_segments_amended ("acme".data) ("widget".data) cfgPlain
      (by decide) (by decide)⟩

theorem EditorMatcher_eq (url : Str) (cfg : Config) :
    EditorMatcher url cfg = (eligibleForRewriteSpec url cfg, none) := by
  cases hA : hasPre url ("https://github.com".data) <;>
  cases hB : hasPre url ("https://raw.githubusercontent.com".data) <;>
  cases hC : hasPre url ("https://raw.github.com".data) <;>
  cases hD : hasPre url ("https://gist.githubusercontent.com".data) <;>
  cases hE : hasPre url ("https://gist.github.com".data) <;>
  cases hF : hasPre url ("https://api.github.com".data) <;>
  cases hG : cfg.Shell.RewriteAPI <;>
  simp [EditorMatcher, eligibleForRewriteSpec, hA, hB, hC, hD, hE, hF, hG]

theorem modifyURL_matched {url : Str} (host : Str) {cfg : Config}
    (helig : eligibleForRewriteSpec url cfg = true)
    (hhttps : hasPre url ("https://".data) = true)
    (hnohttp : hasPre (url.drop 8) ("http://".data) = false) :
    modifyURL url host cfg =
      ("https://".data) ++ host ++ ("/".data) ++ url.drop 8 := by
  have hEM := EditorMatcher_eq url cfg
  simp [modifyURL, hEM, trimPre, helig, hhttps, hnohttp]

theorem modifyURL_of_hasPre {url : Str} (host : Str) {cfg : Config} (g : Str)
    (hg : hasPre url g = true) (h8 : 8 ≤ g.length)
    (hnh1 : hasPre (g.drop 8) ("http://".data) = false)
    (hnh2 : hasPre ("http://".data) (g.drop 8) = false)
    (helig : eligibleForRewriteSpec url cfg = true)
    (hghttps : hasPre g ("https://".data) = true) :
    modifyURL url host cfg =
      ("https://".data) ++ host ++ ("/".data) ++ url.drop 8 := by
  have hurl := hasPre_eq_append hg
  have hdrop : url.drop 8 = g.drop 8 ++ url.drop g.length := by
    conv_lhs => rw [hurl]
    rw [List.drop_append_eq_append_drop, Nat.sub_eq_zero_of_le h8,
      List.drop_zero]
  have hnohttp : hasPre (url.drop 8) ("http://".data) = false := by
    rw [hdrop]
    exact hasPre_append_false _ hnh1 hnh2
  exact modifyURL_matched host helig (hasPre_trans hg hghttps) hnohttp

theorem modifyURL_eligible_eq (url host : Str) (cfg : Config)
    (helig : eligibleForRewriteSpec url cfg = true) :
    modifyURL url host cfg =
      ("https://".data) ++ host ++ ("/".data) ++ url.drop 8 := by
  have hcases := helig
  simp only [eligibleForRewriteSpec, Bool.or_eq_true, Bool.and_eq_true]
    at hcases
  rcases hcases with ((((h | h) | h) | h) | h) | ⟨hG, h⟩
  · exact modifyURL_of_hasPre host ("https://github.com".data) h
      (by decide) (by decide) (by decide) helig (by decide)
  · exact modifyURL_of_hasPre host ("https://raw.githubusercontent.com".data)
      h (by decide) (by decide) (by decide) helig (by decide)
  · exact modifyURL_of_hasPre host ("https://raw.github.com".data) h
      (by decide) (by decide) (by decide) helig (by decide)
  · exact modifyURL_of_hasPre host ("https://gist.githubusercontent.com".data)
      h (by decide) (by decide) (by decide) helig (by decide)
  · exact modifyURL_of_hasPre host ("https://gist.github.com".data) h
      (by decide) (by decide) (by decide) helig (by decide)
  · exact modifyURL_of_hasPre host ("https://api.github.com".data) h
      (by decide) (by decide) (by decide) helig (by decide)

theorem modifyURL_not_matched (url host : Str) (cfg : Config)
    (helig : eligibleForRewriteSpec url cfg = false) :
    modifyURL url host cfg = url := by
  have hEM := EditorMatcher_eq url cfg
  simp [modifyURL, hEM, helig]

/-- C5: `modifyURL` is total and rewrites exactly the URLs the spec lists:
when the url starts with one of the five gated GitHub prefixes, or with the
api prefix while the rewrite-api policy is set, the result is
`https://<host>/<url with its single leading https:// removed>`; on every
other url the result is the url unchanged. -/
theorem C5_rewrite_shape (url host : Str) (cfg : Config) :
    (eligibleForRewriteSpec url cfg = true →
      modifyURL url host cfg =
        ("https://".data) ++ host ++ ("/".data) ++ url.drop 8) ∧
    (eligibleForRewriteSpec url cfg = false →
      modifyURL url host cfg = url) :=
  ⟨modifyURL_eligible_eq url host cfg, modifyURL_not_matched url host cfg⟩

/-- Witness for C5 at an eligible and an ineligible concrete url. -/
theorem C5_rewrite_shape_witness :
    (eligibleForRewriteSpec ("https://github.com/a/b".data) cfgPlain = true ∧
      modifyURL ("https://github.com/a/b".data) ("proxy.example".data)
          cfgPlain =
        ("https://".data) ++ ("proxy.example".data) ++ ("/".data) ++
          (("https://github.com/a/b".data).drop 8)) ∧
    (eligibleForRewriteSpec ("https://example.com/x".data) cfgPlain = false ∧
      modifyURL ("https://example.com/x".data) ("proxy.example".data)
          cfgPlain = ("https://example.com/x".data)) :=
  ⟨⟨by decide,
    (C5_rewrite_shape ("https://github.com/a/b".data) ("proxy.example".data)
      cfgPlain).1 (by decide)⟩,
   ⟨by decide,
    (C5_rewrite_shape ("https://example.com/x".data) ("proxy.example".data)
      cfgPlain).2 (by decide)⟩⟩

/-- C6: for a proxy host for which `https://<host>/` is prefix-incomparable
with every gated GitHub prefix — `proxy.example` in particular — rewriting
is idempotent: the gate cannot match a URL that already points at the proxy
host, so applying `modifyURL` a second time is a no-op. -/
theorem C6_rewrite_idempotent (host : Str) (cfg : Config)
    (h1 : hasPre (("https://".data) ++ host ++ ("/".data))
        ("https://github.com".data) = false ∧
      hasPre ("https://github.com".data)
        (("https://".data) ++ host ++ ("/".data)) = false)
    (h2 : hasPre (("https://".data) ++ host ++ ("/".data))
        ("https://raw.githubusercontent.com".data) = false ∧
      hasPre ("https://raw.githubusercontent.com".data)
        (("https://".data) ++ host ++ ("/".data)) = false)
    (h3 : hasPre (("https://".data) ++ host ++ ("/".data))
        ("https://raw.github.com".data) = false ∧
      hasPre ("https://raw.github.com".data)
        (("https://".data) ++ host ++ ("/".data)) = false)
    (h4 : hasPre (("https://".data) ++ host ++ ("/".data))
        ("https://gist.githubusercontent.com".data) = false ∧
      hasPre ("https://gist.githubusercontent.com".data)
        (("https://".data) ++ host ++ ("/".data)) = false)
    (h5 : hasPre (("https://".data) ++ host ++ ("/".data))
        ("https://gist.github.com".data) = false ∧
      hasPre ("https://gist.github.com".data)
        (("https://".data) ++ host ++ ("/".data)) = false)
    (h6 : hasPre (("https://".data) ++ host ++ ("/".data))
        ("https://api.github.com".data) = false ∧
      hasPre ("https://api.github.com".data)
        (("https://".data) ++ host ++ ("/".data)) = false)
    (url : Str) :
    modifyURL (modifyURL url host cfg) host cfg = modifyURL url host cfg := by
  cases helig : eligibleForRewriteSpec url cfg with
  | false =>
    rw [modifyURL_not_matched url host cfg helig]
    rw [modifyURL_not_matched url host cfg helig]
  | true =>
    rw [modifyURL_eligible_eq url host cfg helig]
    apply modifyURL_not_matched
    simp only [eligibleForRewriteSpec]
    rw [hasPre_append_false _ h1.1 h1.2, hasPre_append_false _ h2.1 h2.2,
      hasPre_append_false _ h3.1 h3.2, hasPre_append_false _ h4.1 h4.2,
      hasPre_append_false _ h5.1 h5.2, hasPre_append_false _ h6.1 h6.2]
    simp

/-- Witness for C6 at host `proxy.example`, rewriting a github url. -/
theorem C6_rewrite_idempotent_witness :
    modifyURL (modifyURL ("https://github.com/a/b".data)
        ("proxy.example".data) cfgPlain) ("proxy.example".data) cfgPlain =
      modifyURL ("https://github.com/a/b".data) ("proxy.example".data)
        cfgPlain :=
  C6_rewrite_idempotent ("proxy.example".data) cfgPlain
    ⟨by decide, by decide⟩ ⟨by decide, by decide⟩ ⟨by decide, by decide⟩
    ⟨by decide, by decide⟩ ⟨by decide, by decide⟩ ⟨by decide, by decide⟩
    ("https://github.com/a/b".data)

/-- C7: the claim says the bytesWritten value returned to the caller equals
the byte length of the drained output.  The source refutes the counter
part: draining the output of the single-line identity-mode job does yield
exactly the rewritten line (67 bytes, as the goroutine's final counter
records), but line 327 returns `written` before the producer goroutine has
run, so the caller receives 0 (reading the counter later is a data race);
the returned value does not equal the output's byte length. -/
theorem C7_transform_identity_eval :
    processLinks
        ⟨("echo https://github.com/acme/widget/raw/main/install.sh\n".data),
          none, none⟩ [] cenvOK ("px.example".data) cfgPlain =
      { outBytes :=
          ("echo https://px.example/github.com/acme/widget/raw/main/install.sh\n".data),
        terminal := none, writtenFinal := 67, logged := [],
        writtenReturned := 0, errReturned := none } ∧
    (processLinks
        ⟨("echo https://github.com/acme/widget/raw/main/install.sh\n".data),
          none, none⟩ [] cenvOK ("px.example".data) cfgPlain).writtenReturned ≠
      (((processLinks
        ⟨("echo https://github.com/acme/widget/raw/main/install.sh\n".data),
          none, none⟩ [] cenvOK ("px.example".data)
          cfgPlain).outBytes.length : Int)) :=
  ⟨by decide, by decide⟩

/-- C8: the claim says every input line appears rewritten in the output,
including a final line not terminated by a newline.  The source refutes the
final-line part: `ReadString` returns the unterminated tail together with
`io.EOF`, and the loop breaks without writing it (line 297-299), so the
input `echo https://github.com/a/b` with no trailing newline produces an
empty output and a zero counter — the line is silently discarded. -/
theorem C8_unterminated_final_line_dropped :
    processLinks ⟨("echo https://github.com/a/b".data), none, none⟩
        [] cenvOK ("px.example".data) cfgPlain =
      { outBytes := [], terminal := none, writtenFinal := 0, logged := [],
        writtenReturned := 0, errReturned := none } := by decide

/-- C9: in gzip mode, when the input does not begin with the gzip magic
bytes, the call itself reports no error (the function returns `nil`), and
draining the output stream yields zero bytes with the wrapped decompression
error as the terminal error; the input-close failure, if any, is only
logged. -/
theorem C9_gzip_bad_header (d : Str) (rE cE : Option Str)
    (cenv : ConduitEnv) (host : Str) (cfg : Config)
    (hmagic : d.take 2 ≠ gzipMagic) :
    processLinks ⟨d, rE, cE⟩ ("gzip".data) cenv host cfg =
      { outBytes := [],
        terminal := some (("gzip解压错误: ".data) ++
          ("gzip: invalid header".data)),
        writtenFinal := 0, logged := inputCloseLog ⟨d, rE, cE⟩,
        writtenReturned := 0, errReturned := none } := by
  simp [processLinks, gzipNewReaderM, hmagic]

/-- Witness for C9 at a concrete non-gzip input. -/
theorem C9_gzip_bad_header_witness :
    (("echo hi".data).take 2 ≠ gzipMagic) ∧
    processLinks ⟨("echo hi".data), none, none⟩ ("gzip".data) cenvOK
        ("px.example".data) cfgPlain =
      { outBytes := [],
        terminal := some (("gzip解压错误: ".data) ++
          ("gzip: invalid header".data)),
        writtenFinal := 0, logged := inputCloseLog ⟨("echo hi".data), none, none⟩,
        writtenReturned := 0, errReturned := none } :=
  ⟨by decide,
    C9_gzip_bad_header ("echo hi".data) none none cenvOK ("px.example".data)
      cfgPlain (by decide)⟩

theorem finishIdentity_done_of_noWriteFail {outLines : List Str}
    {cenv : ConduitEnv} (rE : Option Str) (input : InputStream)
    (hw : loopWriteFails outLines cenv = false) :
    finishIdentity outLines rE cenv input =
      finishIdentityDone outLines rE cenv input := by
  obtain ⟨wfa, fa, wm, fm, gm⟩ := cenv
  rcases wfa with _ | k
  · rfl
  · simp only [loopWriteFails, decide_eq_false_iff_not] at hw
    simp [finishIdentity, hw]

theorem finishGzip_done_of_noWriteFail {outLines : List Str}
    {cenv : ConduitEnv} (rE : Option Str) (input : InputStream)
    (hw : loopWriteFails outLines cenv = false) :
    finishGzip outLines rE cenv input =
      finishGzipDone outLines rE cenv input := by
  obtain ⟨wfa, fa, wm, fm, gm⟩ := cenv
  rcases wfa with _ | k
  · rfl
  · simp only [loopWriteFails, decide_eq_false_iff_not] at hw
    simp [finishGzip, hw]

theorem finishIdentity_terminal_const (outLines : List Str) (rE : Option Str)
    (cenv : ConduitEnv) (i1 i2 : InputStream) :
    (finishIdentity outLines rE cenv i1).terminal =
      (finishIdentity outLines rE cenv i2).terminal := by
  obtain ⟨wfa, fa, wm, fm, gm⟩ := cenv
  rcases wfa with _ | k <;> rcases rE with _ | e <;> rcases fm with _ | f <;>
    simp [finishIdentity, finishIdentityDone, apply_ite]
  all_goals (split <;> intro h2 <;> omega)

theorem finishGzip_terminal_const (outLines : List Str) (rE : Option Str)
    (cenv : ConduitEnv) (i1 i2 : InputStream) :
    (finishGzip outLines rE cenv i1).terminal =
      (finishGzip outLines rE cenv i2).terminal := by
  obtain ⟨wfa, fa, wm, fm, gm⟩ := cenv
  rcases wfa with _ | k <;> rcases rE with _ | e <;> rcases fm with _ | f <;>
    rcases gm with _ | g <;>
    simp [finishGzip, finishGzipDone, apply_ite]
  all_goals (split <;> intro h2 <;> omega)

theorem finishIdentity_logged_close (outLines : List Str) (rE : Option Str)
    (cenv : ConduitEnv) (input : InputStream) (ce : Str)
    (hce : input.closeErr = some ce) :
    (("input close failed: ".data) ++ ce) ∈
      (finishIdentity outLines rE cenv input).logged := by
  obtain ⟨wfa, fa, wm, fm, gm⟩ := cenv
  rcases wfa with _ | k <;> rcases rE with _ | e <;> rcases fm with _ | f <;>
    simp [finishIdentity, finishIdentityDone, inputCloseLog, hce, apply_ite] <;>
    split <;> simp

theorem finishGzip_logged_close (outLines : List Str) (rE : Option Str)
    (cenv : ConduitEnv) (input : InputStream) (ce : Str)
    (hce : input.closeErr = some ce) :
    (("input close failed: ".data) ++ ce) ∈
      (finishGzip outLines rE cenv input).logged := by
  obtain ⟨wfa, fa, wm, fm, gm⟩ := cenv
  rcases wfa with _ | k <;> rcases rE with _ | e <;> rcases fm with _ | f <;>
    rcases gm with _ | g <;>
    simp [finishGzip, finishGzipDone, inputCloseLog, hce, apply_ite] <;>
    split <;> simp

/-- C10: error-propagation priorities of the producer goroutine, in both
modes.  A conduit write failure surfacing inside the loop (lines 310-315)
is the recorded error and wins over the read error the loop never reaches
and over every cleanup failure; with the loop completed, a read error
(line 300) is the terminal error regardless of later flush, gzip-close and
input-close failures, which are logged only; with no loop error, the first
buffered-writer flush failure is recorded (line 319), beating a gzip-close
failure; in gzip mode with a delivered flush, a `gzipWriter.Close()`
trailer-write failure (lines 275-283) is the recorded error; with no
failure at all the transform ends cleanly even when the input close fails.
The input-close failure never influences the terminal error in any mode
and is only ever logged. -/
theorem C10_error_priority (input : InputStream) (compress : Str)
    (cenv : ConduitEnv) (host : Str) (cfg : Config) :
    (compress ≠ ("gzip".data) →
      (∀ k, cenv.writeFailAt = some k →
        k < (plLines input.data host cfg).length →
        (processLinks input compress cenv host cfg).terminal =
          some (("写入文件错误: ".data) ++ cenv.writeMsg)) ∧
      (loopWriteFails (plLines input.data host cfg) cenv = false →
        ∀ e, input.readErr = some e →
        (processLinks input compress cenv host cfg).terminal =
          some (("读取行错误: ".data) ++ e)) ∧
      (loopWriteFails (plLines input.data host cfg) cenv = false →
        input.readErr = none → ∀ f, cenv.flushMsg = some f →
        (processLinks input compress cenv host cfg).terminal = some f) ∧
      (loopWriteFails (plLines input.data host cfg) cenv = false →
        input.readErr = none → cenv.flushMsg = none →
        (processLinks input compress cenv host cfg).terminal = none)) ∧
    (compress = ("gzip".data) → input.data.take 2 = gzipMagic →
      (∀ k, cenv.writeFailAt = some k →
        k < (plLines (input.data.drop 10) host cfg).length →
        (processLinks input compress cenv host cfg).terminal =
          some (("写入文件错误: ".data) ++ cenv.writeMsg)) ∧
      (loopWriteFails (plLines (input.data.drop 10) host cfg) cenv = false →
        ∀ e, input.readErr = some e →
        (processLinks input compress cenv host cfg).terminal =
          some (("读取行错误: ".data) ++ e)) ∧
      (loopWriteFails (plLines (input.data.drop 10) host cfg) cenv = false →
        input.readErr = none → ∀ f, cenv.flushMsg = some f →
        (processLinks input compress cenv host cfg).terminal = some f) ∧
      (loopWriteFails (plLines (input.data.drop 10) host cfg) cenv = false →
        input.readErr = none → cenv.flushMsg = none →
        ∀ g, cenv.gzipCloseMsg = some g →
        (processLinks input compress cenv host cfg).terminal = some g) ∧
      (loopWriteFails (plLines (input.data.drop 10) host cfg) cenv = false →
        input.readErr = none → cenv.flushMsg = none →
        cenv.gzipCloseMsg = none →
        (processLinks input compress cenv host cfg).terminal = none)) ∧
    ((processLinks input compress cenv host cfg).terminal =
      (processLinks ⟨input.data, input.readErr, none⟩ compress cenv host
        cfg).terminal) ∧
    (∀ ce, input.closeErr = some ce →
      (("input close failed: ".data) ++ ce) ∈
        (processLinks input compress cenv host cfg).logged) := by
  refine ⟨fun hc => ?_, fun hcz hmag => ?_, ?_, ?_⟩
  · refine ⟨fun k hk hlt => ?_, fun hw e he => ?_, fun hw hre f hf => ?_,
      fun hw hre hf => ?_⟩
    · simp [processLinks, hc, finishIdentity, hk, hlt]
    · rw [show processLinks input compress cenv host cfg =
          finishIdentity (plLines input.data host cfg) input.readErr cenv
            input by simp [processLinks, hc],
        finishIdentity_done_of_noWriteFail _ _ hw, he]
      obtain ⟨wfa, fa, wm, fm, gm⟩ := cenv
      rcases fm with _ | f <;> simp [finishIdentityDone]
    · rw [show processLinks input compress cenv host cfg =
          finishIdentity (plLines input.data host cfg) input.readErr cenv
            input by simp [processLinks, hc],
        finishIdentity_done_of_noWriteFail _ _ hw, hre]
      simp [finishIdentityDone, hf]
    · rw [show processLinks input compress cenv host cfg =
          finishIdentity (plLines input.data host cfg) input.readErr cenv
            input by simp [processLinks, hc],
        finishIdentity_done_of_noWriteFail _ _ hw, hre]
      simp [finishIdentityDone, hf]
  · have hok : processLinks input compress cenv host cfg =
        finishGzip (plLines (input.data.drop 10) host cfg) input.readErr
          cenv input := by
      simp [processLinks, hcz, gzipNewReaderM, hmag]
    refine ⟨fun k hk hlt => ?_, fun hw e he => ?_, fun hw hre f hf => ?_,
      fun hw hre hf g hg => ?_, fun hw hre hf hg => ?_⟩
    · rw [hok]
      simp [finishGzip, hk, hlt]
    · rw [hok, finishGzip_done_of_noWriteFail _ _ hw, he]
      simp [finishGzipDone]
    · rw [hok, finishGzip_done_of_noWriteFail _ _ hw, hre]
      simp [finishGzipDone, hf]
    · rw [hok, finishGzip_done_of_noWriteFail _ _ hw, hre]
      simp [finishGzipDone, hf, hg]
    · rw [hok, finishGzip_done_of_noWriteFail _ _ hw, hre]
      simp [finishGzipDone, hf, hg]
  · by_cases hgz : compress = ("gzip".data)
    · simp only [processLinks, if_pos hgz]
      rcases hr : gzipNewReaderM input.data with ge | payload <;>
        simp only [hr]
      exact finishGzip_terminal_const _ _ _ _ _
    · simp only [processLinks, if_neg hgz]
      exact finishIdentity_terminal_const _ _ _ _ _
  · intro ce hce
    by_cases hgz : compress = ("gzip".data)
    · simp only [processLinks, if_pos hgz]
      rcases hr : gzipNewReaderM input.data with ge | payload <;>
        simp only [hr]
      · simp [inputCloseLog, hce]
      · exact finishGzip_logged_close _ _ _ _ _ hce
    · simp only [processLinks, if_neg hgz]
      exact finishIdentity_logged_close _ _ _ _ _ hce

/-- Witness for C10: an identity-mode job where the conduit write failure
fires on the first line and beats a pending read error (the input-close
failure only reaching the log), and a gzip-mode job whose only failure is
the trailer write of the deferred gzip-writer close, which becomes the
terminal error. -/
theorem C10_error_priority_witness :
    (([] : Str) ≠ ("gzip".data)) ∧
    (0 < (plLines ("echo https://github.com/a/b\n".data) ("px.example".data)
      cfgPlain).length) ∧
    (processLinks
        ⟨("echo https://github.com/a/b\n".data), some ("rboom".data),
          some ("cboom".data)⟩ []
        ⟨some 0, 0, ("wboom".data), some ("fboom".data), none⟩
        ("px.example".data) cfgPlain).terminal =
      some (("写入文件错误: ".data) ++ ("wboom".data)) ∧
    (("input close failed: ".data) ++ ("cboom".data)) ∈
      (processLinks
        ⟨("echo https://github.com/a/b\n".data), some ("rboom".data),
          some ("cboom".data)⟩ []
        ⟨some 0, 0, ("wboom".data), some ("fboom".data), none⟩
        ("px.example".data) cfgPlain).logged ∧
    ((gzipMagic ++ ("01234567hi\n".data)).take 2 = gzipMagic) ∧
    (loopWriteFails
      (plLines ((gzipMagic ++ ("01234567hi\n".data)).drop 10)
        ("px.example".data) cfgPlain)
      ⟨none, 0, [], none, some ("gboom".data)⟩ = false) ∧
    (processLinks ⟨gzipMagic ++ ("01234567hi\n".data), none, none⟩
        ("gzip".data) ⟨none, 0, [], none, some ("gboom".data)⟩
        ("px.example".data) cfgPlain).terminal = some ("gboom".data) :=
  ⟨by decide, by decide,
    ((C10_error_priority
      ⟨("echo https://github.com/a/b\n".data), some ("rboom".data),
        some ("cboom".data)⟩ []
      ⟨some 0, 0, ("wboom".data), some ("fboom".data), none⟩
      ("px.example".data) cfgPlain).1 (by decide)).1 0 rfl (by decide),
    (C10_error_priority
      ⟨("echo https://github.com/a/b\n".data), some ("rboom".data),
        some ("cboom".data)⟩ []
      ⟨some 0, 0, ("wboom".data), some ("fboom".data), none⟩
      ("px.example".data) cfgPlain).2.2.2 ("cboom".data) rfl,
    by decide, by decide,
    ((C10_error_priority ⟨gzipMagic ++ ("01234567hi\n".data), none, none⟩
      ("gzip".data) ⟨none, 0, [], none, some ("gboom".data)⟩
      ("px.example".data) cfgPlain).2.1 rfl (by decide)).2.2.2.1
      (by decide) rfl rfl ("gboom".data) rfl⟩
